import Mathlib

/-!
Verification of the DMI Weather EDR client (`custom_components/dmi_weather/dmi_api.py`)
against its natural-language specification.

The embedding models the data-processing pipeline of `DMIWeatherAPI`:
JSON payloads are an inductive type with rational numbers standing in for
Python floats, Python exceptions are an explicit error type, and the HTTP
layer is abstracted as a response environment (status code plus body).
Each definition mirrors the corresponding Python function line by line;
deviations forced by the model (rationals instead of IEEE floats, a
restricted ISO-8601 parser) are noted in doc comments.
-/

namespace DMI

/-- Python exceptions relevant to the client.  `exception msg` models a
`raise Exception(msg)`; the other constructors model the built-in error
classes that the code raises or catches. -/
inductive PyErr where
  | valueError
  | typeError
  | attributeError
  | keyError (key : String)
  | exception (msg : String)
deriving DecidableEq, Repr

/-- JSON values as delivered by `response.json()`.  Numbers are rationals
(the payloads of interest are finite decimals, which ℚ represents exactly;
IEEE rounding is outside the model).  Booleans do not occur in the payloads
the client reads and are omitted. -/
inductive Json where
  | null
  | num (q : ℚ)
  | str (s : String)
  | arr (xs : List Json)
  | obj (fields : List (String × Json))

/-- Python truthiness of a JSON value (`if not data: ...`). -/
def Json.falsy : Json → Bool
  | .null => true
  | .num q => q = 0
  | .str s => s = ""
  | .arr xs => xs.isEmpty
  | .obj fs => fs.isEmpty

/-- Python `==` between a JSON value and a string constant.  Values of a
different type compare unequal without error; containers never equal a
string. -/
def jsonEqStr (j : Json) (s : String) : Bool :=
  match j with
  | .str t => t = s
  | _ => false

/-- Python `==` between two hashable JSON values used as dict keys.
Containers are rejected as unhashable before this is ever consulted. -/
def keyEq (a b : Json) : Bool :=
  match a, b with
  | .null, .null => true
  | .num x, .num y => x = y
  | .str x, .str y => x = y
  | _, _ => false

/-- Substring test, modelling Python's `needle in haystack` for strings.
For the non-empty needles used by the client, Python's containment test
holds iff splitting on the needle yields more than one piece. -/
def strContains (haystack needle : String) : Bool :=
  (haystack.splitOn needle).length > 1

/-- Python `key in container`.  Dicts check keys, lists check elements
(via `==`, so only string elements can match a string key), strings check
substrings; `in` on `None` or a number raises `TypeError`. -/
def jsonContains (j : Json) (key : String) : Except PyErr Bool :=
  match j with
  | .obj fs => .ok (fs.any (fun p => p.1 = key))
  | .arr xs => .ok (xs.any (fun x => jsonEqStr x key))
  | .str s => .ok (strContains s key)
  | .null => .error .typeError
  | .num _ => .error .typeError

/-- Python `container[key]` with a string key.  Dict lookup raises
`KeyError` when absent; subscripting a list, string, number or `None` with
a string raises `TypeError`. -/
def jsonIndexStr (j : Json) (key : String) : Except PyErr Json :=
  match j with
  | .obj fs =>
    match fs.find? (fun p => p.1 = key) with
    | some p => .ok p.2
    | none => .error (.keyError key)
  | _ => .error .typeError

/-- Python `container.get(key, default)`.  Only dicts have `.get`; calling
it on any other value raises `AttributeError`. -/
def jsonGetDefault (j : Json) (key : String) (dflt : Json) : Except PyErr Json :=
  match j with
  | .obj fs =>
    match fs.find? (fun p => p.1 = key) with
    | some p => .ok p.2
    | none => .ok dflt
  | _ => .error .attributeError

/-- Python `len(container)`; `len` of a number or `None` raises
`TypeError`. -/
def pyLen (j : Json) : Except PyErr ℕ :=
  match j with
  | .arr xs => .ok xs.length
  | .str s => .ok s.length
  | .obj fs => .ok fs.length
  | _ => .error .typeError

/-- Python `container[i]` with a non-negative integer index already checked
to be in range by the caller.  Indexing a dict with an integer raises
`KeyError` (JSON objects only have string keys); indexing `None` or a
number raises `TypeError`. -/
def pyIndexNat (j : Json) (i : ℕ) : Except PyErr Json :=
  match j with
  | .arr xs =>
    match xs.get? i with
    | some v => .ok v
    | none => .error .typeError
  | .str s =>
    match s.data.get? i with
    | some c => .ok (.str (String.singleton c))
    | none => .error .typeError
  | .obj _ => .error (.keyError "int")
  | _ => .error .typeError

/-- Python iteration `for x in container`: lists yield elements, strings
yield one-character strings, dicts yield their keys; iterating a number or
`None` raises `TypeError`. -/
def pyIterate (j : Json) : Except PyErr (List Json) :=
  match j with
  | .arr xs => .ok xs
  | .str s => .ok (s.data.map (fun c => .str (String.singleton c)))
  | .obj fs => .ok (fs.map (fun p => .str p.1))
  | _ => .error .typeError

/-- Python numeric coercion used by the `value > 200`-style comparisons in
`_extract_parameter_value`: comparing a non-number with a number raises
`TypeError`. -/
def asNum (j : Json) : Except PyErr ℚ :=
  match j with
  | .num q => .ok q
  | _ => .error .typeError

/-- Python `float(value)`.  Numbers convert to themselves; lists, dicts and
`None` raise `TypeError`.  Strings are modelled as raising `ValueError`
(numeric strings, which Python would accept, do not occur in the inputs
considered here). -/
def pyFloat (j : Json) : Except PyErr ℚ :=
  match j with
  | .num q => .ok q
  | .str _ => .error .valueError
  | .null => .error .typeError
  | .arr _ => .error .typeError
  | .obj _ => .error .typeError

/-- The unit-conversion block of `_extract_parameter_value`
(dmi_api.py lines 236-250): Kelvin→Celsius for the two temperature codes
when the value exceeds 200, Pa→hPa for sea-level pressure above 10000, and
fraction→percent for cloud cover at most 1. -/
def convertUnits (parameter : String) (value : Json) : Except PyErr Json :=
  if parameter = "temperature-2m" then do
    let q ← asNum value
    pure (if 200 < q then .num (q - 273.15) else value)
  else if parameter = "pressure-sealevel" then do
    let q ← asNum value
    pure (if 10000 < q then .num (q / 100) else value)
  else if parameter = "fraction-of-cloud-cover" then do
    let q ← asNum value
    pure (if q ≤ 1 then .num (q * 100) else value)
  else if parameter = "dew-point-temperature-2m" then do
    let q ← asNum value
    pure (if 200 < q then .num (q - 273.15) else value)
  else
    pure value

/-- Embeds `DMIWeatherAPI._extract_parameter_value` (dmi_api.py lines 219-252):
look up the parameter's value array, return `none` when the parameter,
its `values` key or the index is missing or the entry is JSON null, apply
the unit conversions, and coerce to float. -/
def extractParameterValue (ranges : Json) (parameter : String) (timeIndex : ℕ) :
    Except PyErr (Option ℚ) := do
  let hasParam ← jsonContains ranges parameter
  if !hasParam then
    pure none
  else do
    let paramData ← jsonIndexStr ranges parameter
    let hasValues ← jsonContains paramData "values"
    if !hasValues then
      pure none
    else do
      let values ← jsonIndexStr paramData "values"
      let n ← pyLen values
      if timeIndex ≥ n then
        pure none
      else do
        let value ← pyIndexNat values timeIndex
        match value with
        | .null => pure none
        | _ => do
          let converted ← convertUnits parameter value
          let q ← pyFloat converted
          pure (some q)

/-- Broken-down timestamp as produced by `datetime.fromisoformat` on the
UTC strings the EDR API serves. -/
structure DateTime where
  year : ℕ
  month : ℕ
  day : ℕ
  hour : ℕ
  minute : ℕ
  second : ℕ
deriving DecidableEq, Repr

/-- Calendar date of a timestamp, as returned by `datetime.date()`. -/
def DateTime.date (t : DateTime) : ℕ × ℕ × ℕ := (t.year, t.month, t.day)

/-- Decimal digit value of a character, if it is a digit. -/
def digitVal (c : Char) : Option ℕ :=
  if c.isDigit then some (c.toNat - 48) else none

/-- Two-digit decimal field. -/
def digits2 (a b : Char) : Option ℕ := do
  let x ← digitVal a
  let y ← digitVal b
  pure (10 * x + y)

/-- Four-digit decimal field. -/
def digits4 (a b c d : Char) : Option ℕ := do
  let x ← digits2 a b
  let y ← digits2 c d
  pure (100 * x + y)

/-- Assemble and range-check the six timestamp fields, mirroring the
validation `datetime.fromisoformat` performs. -/
def mkDateTime (y mo d h mi s : ℕ) : Option DateTime :=
  if 1 ≤ mo ∧ mo ≤ 12 ∧ 1 ≤ d ∧ d ≤ 31 ∧ h ≤ 23 ∧ mi ≤ 59 ∧ s ≤ 59 then
    some ⟨y, mo, d, h, mi, s⟩
  else
    none

/-- Models `datetime.fromisoformat` on the two shapes the client feeds
it after its `Z → +00:00` replacement: `YYYY-MM-DDTHH:MM:SS` with or
without a `+00:00` suffix.  Any other string is rejected (raising
`ValueError` at the call site), which matches Python on every string the
claims exercise; exotic ISO variants accepted by Python are outside the
model. -/
def fromIsoFormat (s : String) : Option DateTime :=
  match s.data with
  | [y1, y2, y3, y4, '-', m1, m2, '-', d1, d2, 'T',
     h1, h2, ':', n1, n2, ':', s1, s2] => do
    let y ← digits4 y1 y2 y3 y4
    let mo ← digits2 m1 m2
    let d ← digits2 d1 d2
    let h ← digits2 h1 h2
    let mi ← digits2 n1 n2
    let sec ← digits2 s1 s2
    mkDateTime y mo d h mi sec
  | [y1, y2, y3, y4, '-', m1, m2, '-', d1, d2, 'T',
     h1, h2, ':', n1, n2, ':', s1, s2, '+', '0', '0', ':', '0', '0'] => do
    let y ← digits4 y1 y2 y3 y4
    let mo ← digits2 m1 m2
    let d ← digits2 d1 d2
    let h ← digits2 h1 h2
    let mi ← digits2 n1 n2
    let sec ← digits2 s1 s2
    mkDateTime y mo d h mi sec
  | _ => none

/-- Models `time_str.replace("Z", "+00:00")` on the character list: the pattern
is the single character `Z`, so Python's substring replacement is exactly
this character-wise rewrite. -/
def replaceZChars : List Char → List Char
  | [] => []
  | c :: cs =>
    if c = 'Z' then '+' :: '0' :: '0' :: ':' :: '0' :: '0' :: replaceZChars cs
    else c :: replaceZChars cs

/-- Embeds `time_str.replace("Z", "+00:00")`. -/
def replaceZ (s : String) : String :=
  ⟨replaceZChars s.data⟩

/-- The timestamp parse in `_process_edr_data` (dmi_api.py line 181):
`datetime.fromisoformat(time_str.replace("Z", "+00:00"))`.  Calling
`.replace` on a non-string raises `AttributeError`; an unparseable string
raises `ValueError`. -/
def parseTime (tj : Json) : Except PyErr DateTime :=
  match tj with
  | .str s =>
    match fromIsoFormat (replaceZ s) with
    | some dt => .ok dt
    | none => .error .valueError
  | _ => .error .attributeError

/-- The Python condition `x and x > threshold` on an optional float:
`None` and `0.0` are falsy, so the comparison only runs on a non-null,
non-zero value. -/
def pyTruthyAndGt (o : Option ℚ) (threshold : ℚ) : Bool :=
  match o with
  | none => false
  | some v => v ≠ 0 && threshold < v

/-- Embeds `DMIWeatherAPI._estimate_weather_code` (dmi_api.py lines 254-263).
Return codes follow the source's comments: 3 = rain, 2 = cloudy,
1 = partly cloudy, 0 = clear. -/
def estimateWeatherCode (precipitation cloudCover : Option ℚ) : ℕ :=
  if pyTruthyAndGt precipitation (1/10) then 3
  else if pyTruthyAndGt cloudCover 80 then 2
  else if pyTruthyAndGt cloudCover 30 then 1
  else 0

/-- One hourly timestep record as built in `_process_edr_data`
(dmi_api.py lines 184-201).  The Python record is a dict; every key the
rest of the pipeline reads with `.get` is a field here, and
`wind_direction`, which the decoder never writes, is carried as a field so
that the daily aggregator's `.get("wind_direction")` read (which always
returns `None` on decoder output) can be expressed. -/
structure HourlyRecord where
  time : DateTime
  temperature : Option ℚ
  pressure : Option ℚ
  humidity : Option ℚ
  wind_speed : Option ℚ
  wind_gust : Option ℚ
  precipitation : Option ℚ
  cloud_cover : Option ℚ
  dew_point : Option ℚ
  weather_code : Option ℕ
  wind_direction : Option ℚ
deriving DecidableEq, Repr

/-- Body of the per-index `try` block in `_process_edr_data`
(dmi_api.py lines 180-207): parse the timestamp, extract the eight
parameters, and estimate the weather code. -/
def decodeStepRaw (ranges : Json) (tj : Json) (i : ℕ) : Except PyErr HourlyRecord := do
  let time ← parseTime tj
  let temperature ← extractParameterValue ranges "temperature-2m" i
  let pressure ← extractParameterValue ranges "pressure-sealevel" i
  let humidity ← extractParameterValue ranges "relative-humidity-2m" i
  let wind_speed ← extractParameterValue ranges "wind-speed-10m" i
  let wind_gust ← extractParameterValue ranges "gust-wind-speed-10m" i
  let precipitation ← extractParameterValue ranges "total-precipitation" i
  let cloud_cover ← extractParameterValue ranges "fraction-of-cloud-cover" i
  let dew_point ← extractParameterValue ranges "dew-point-temperature-2m" i
  pure { time := time
         temperature := temperature
         pressure := pressure
         humidity := humidity
         wind_speed := wind_speed
         wind_gust := wind_gust
         precipitation := precipitation
         cloud_cover := cloud_cover
         dew_point := dew_point
         weather_code := some (estimateWeatherCode precipitation cloud_cover)
         wind_direction := none }

/-- The `except (ValueError, TypeError)` clause of the decode loop
(dmi_api.py lines 209-211) catches exactly these two classes; any other
exception propagates. -/
def caughtByDecodeLoop (e : PyErr) : Bool :=
  match e with
  | .valueError => true
  | .typeError => true
  | _ => false

/-- One iteration of the decode loop: `.ok (some r)` appends a record,
`.ok none` is a caught-and-skipped index, `.error e` is an uncaught
exception aborting the loop. -/
def decodeStep (ranges : Json) (tj : Json) (i : ℕ) : Except PyErr (Option HourlyRecord) :=
  match decodeStepRaw ranges tj i with
  | .ok r => .ok (some r)
  | .error e => if caughtByDecodeLoop e then .ok none else .error e

/-- The `for i, time_str in enumerate(time_values)` loop of
`_process_edr_data`, collecting the surviving records in axis order. -/
def decodeLoop (ranges : Json) : List Json → ℕ → Except PyErr (List HourlyRecord)
  | [], _ => .ok []
  | tj :: rest, i =>
    match decodeStep ranges tj i with
    | .error e => .error e
    | .ok none => decodeLoop ranges rest (i + 1)
    | .ok (some r) =>
      match decodeLoop ranges rest (i + 1) with
      | .error e => .error e
      | .ok rs => .ok (r :: rs)

/-- The `float("-inf")` / `float("inf")` sentinels used by
`_create_daily_forecast` for the running temperature extrema, together
with finite rationals. -/
inductive PyFloatInf where
  | ninf
  | pinf
  | fin (q : ℚ)
deriving DecidableEq, Repr

/-- Python `max` against a finite value: `max(-inf, t) = t`. -/
def pymax (a : PyFloatInf) (t : ℚ) : PyFloatInf :=
  match a with
  | .ninf => .fin t
  | .pinf => .pinf
  | .fin m => .fin (max m t)

/-- Python `min` against a finite value: `min(inf, t) = t`. -/
def pymin (a : PyFloatInf) (t : ℚ) : PyFloatInf :=
  match a with
  | .pinf => .fin t
  | .ninf => .ninf
  | .fin m => .fin (min m t)

/-- The per-day accumulator dict created in `_create_daily_forecast`
(dmi_api.py lines 284-292). -/
structure DailyBucket where
  time : DateTime
  temperature_max : PyFloatInf
  temperature_min : PyFloatInf
  precipitation : ℚ
  wind_speed : ℚ
  wind_direction : ℚ
  weather_code : Option ℕ
deriving DecidableEq, Repr

/-- A fresh day bucket (dmi_api.py lines 284-292). -/
def freshBucket (t : DateTime) : DailyBucket :=
  { time := t
    temperature_max := .ninf
    temperature_min := .pinf
    precipitation := 0
    wind_speed := 0
    wind_direction := 0
    weather_code := none }

/-- dmi_api.py lines 295-298: fold a non-null temperature into the
running max/min. -/
def updTemp (b : DailyBucket) (h : HourlyRecord) : DailyBucket :=
  match h.temperature with
  | some t => { b with temperature_max := pymax b.temperature_max t
                       temperature_min := pymin b.temperature_min t }
  | none => b

/-- dmi_api.py lines 300-302: add a non-null precipitation to the running
sum. -/
def updPrecip (b : DailyBucket) (h : HourlyRecord) : DailyBucket :=
  match h.precipitation with
  | some p => { b with precipitation := b.precipitation + p }
  | none => b

/-- dmi_api.py lines 304-306: a non-null wind speed overwrites the
bucket's value. -/
def updWind (b : DailyBucket) (h : HourlyRecord) : DailyBucket :=
  match h.wind_speed with
  | some w => { b with wind_speed := w }
  | none => b

/-- dmi_api.py lines 308-310: a non-null wind direction overwrites the
bucket's value. -/
def updWindDir (b : DailyBucket) (h : HourlyRecord) : DailyBucket :=
  match h.wind_direction with
  | some w => { b with wind_direction := w }
  | none => b

/-- dmi_api.py lines 312-314: a non-null weather code overwrites the
bucket's value. -/
def updCode (b : DailyBucket) (h : HourlyRecord) : DailyBucket :=
  match h.weather_code with
  | some c => { b with weather_code := some c }
  | none => b

/-- The "update daily data" block (dmi_api.py lines 294-314), applying
the five per-field updates in source order. -/
def updateBucket (b : DailyBucket) (h : HourlyRecord) : DailyBucket :=
  updCode (updWindDir (updWind (updPrecip (updTemp b h) h) h) h) h

/-- Loop state of `_create_daily_forecast`: `current_date`, the live
bucket (`none` models the initial empty dict, which is falsy), and the
accumulated `daily_forecast` list. -/
structure DState where
  current_date : Option (ℕ × ℕ × ℕ)
  daily_data : Option DailyBucket
  acc : List DailyBucket
deriving DecidableEq, Repr

/-- One iteration of the grouping loop (dmi_api.py lines 273-314).  The
source's `if not time_obj: continue` guard never fires because a datetime
is always truthy, so it has no counterpart here.  On a date change the
previous bucket is flushed when both `current_date` and `daily_data` are
truthy, and a fresh bucket is opened; the current record is then folded
into the live bucket. -/
def dailyStep (st : DState) (h : HourlyRecord) : DState :=
  let dk := h.time.date
  let st :=
    if some dk ≠ st.current_date then
      let acc :=
        match st.current_date, st.daily_data with
        | some _, some b => st.acc ++ [b]
        | _, _ => st.acc
      { current_date := some dk, daily_data := some (freshBucket h.time), acc := acc }
    else
      st
  match st.daily_data with
  | some b => { st with daily_data := some (updateBucket b h) }
  | none => st

/-- A finished daily record after the temperature cleanup
(dmi_api.py lines 320-325). -/
structure DailyRecord where
  time : DateTime
  temperature_max : Option ℚ
  temperature_min : Option ℚ
  precipitation : ℚ
  wind_speed : ℚ
  wind_direction : ℚ
  weather_code : Option ℕ
deriving DecidableEq, Repr

/-- The cleanup pass (dmi_api.py lines 320-325): a surviving `-inf` max or
`inf` min becomes `None`.  A max of `+inf` (resp. a min of `-inf`) cannot
arise from finite inputs; those arms also map to `none`. -/
def cleanBucket (b : DailyBucket) : DailyRecord :=
  { time := b.time
    temperature_max := match b.temperature_max with | .fin q => some q | _ => none
    temperature_min := match b.temperature_min with | .fin q => some q | _ => none
    precipitation := b.precipitation
    wind_speed := b.wind_speed
    wind_direction := b.wind_direction
    weather_code := b.weather_code }

/-- Embeds `DMIWeatherAPI._create_daily_forecast` (dmi_api.py lines 265-327):
fold the hourly records through the grouping loop, flush the last bucket,
and clean up the temperature sentinels. -/
def createDailyForecast (hourly : List HourlyRecord) : List DailyRecord :=
  let fin := hourly.foldl dailyStep ⟨none, none, []⟩
  let buckets :=
    match fin.current_date, fin.daily_data with
    | some _, some b => fin.acc ++ [b]
    | _, _ => fin.acc
  buckets.map cleanBucket

/-- The snapshot held by `DMIWeatherAPI`: `current_data` (an empty dict at
construction, modelled as `none`), the daily `forecast_data` and the
`hourly_forecast_data`.  The rate-limiter timestamp is not part of the
model; rate limiting only delays calls and never alters the data path. -/
structure ApiState where
  current_data : Option HourlyRecord
  forecast_data : List DailyRecord
  hourly_forecast_data : List HourlyRecord
deriving DecidableEq, Repr

/-- Embeds `DMIWeatherAPI._process_edr_data` (dmi_api.py lines 158-217).  A falsy
payload, a payload without `ranges`, or an absent/empty time axis returns
with the snapshot untouched; otherwise the loop decodes the records, the
first index's record (if index 0 survived) becomes `current_data`, and the
three snapshot fields are replaced.  All statements between the first and
last snapshot assignment in the source are total, so the replacement is a
single step here. -/
def processEdrData (data : Json) (st : ApiState) : Except PyErr ApiState := do
  if data.falsy then
    pure st
  else do
    let hasRanges ← jsonContains data "ranges"
    if !hasRanges then
      pure st
    else do
      let ranges ← jsonIndexStr data "ranges"
      let domain ← jsonGetDefault data "domain" (.obj [])
      let axes ← jsonGetDefault domain "axes" (.obj [])
      let tAxis ← jsonGetDefault axes "t" (.obj [])
      let timeValues ← jsonGetDefault tAxis "values" (.arr [])
      if timeValues.falsy then
        pure st
      else do
        let tvs ← pyIterate timeValues
        let recs ← decodeLoop ranges tvs 0
        let current : Option HourlyRecord :=
          match tvs with
          | [] => none
          | t0 :: _ =>
            match decodeStep ranges t0 0 with
            | .ok (some r) => some r
            | _ => none
        pure { current_data := current
               hourly_forecast_data := recs
               forecast_data := createDailyForecast recs }

/-- Outcome of one HTTP GET as seen by the client: a timeout, a transport
error, or a response with a status code and JSON body.  (A body that is
not JSON is outside the model; the client always requests JSON.) -/
inductive HttpResult where
  | timeout
  | netError (msg : String)
  | resp (status : ℕ) (body : Json)

/-- Python dict insertion: an existing equal key keeps its position and
takes the new value, a new key is appended. -/
def dictInsert (d : List (Json × Json)) (k v : Json) : List (Json × Json) :=
  if d.any (fun p => keyEq p.1 k) then
    d.map (fun p => if keyEq p.1 k then (p.1, v) else p)
  else
    d ++ [(k, v)]

/-- One iteration of the dict-building loop of `_get_collections`
(dmi_api.py lines 96-97): `collections[collection["id"]] = collection`.
A collection without an `id` raises `KeyError`; an unhashable `id` (list
or dict) raises `TypeError`. -/
def collInsertStep (d : List (Json × Json)) (c : Json) : Except PyErr (List (Json × Json)) := do
  let id ← jsonIndexStr c "id"
  match id with
  | .arr _ => .error .typeError
  | .obj _ => .error .typeError
  | _ => pure (dictInsert d id c)

/-- The dict-building loop of `_get_collections` (dmi_api.py lines 93-98),
starting from the empty dict. -/
def buildCollectionsDict (items : List Json) : Except PyErr (List (Json × Json)) :=
  items.foldlM collInsertStep []

/-- Embeds `DMIWeatherAPI._get_collections` (dmi_api.py lines 75-105): classify
the response (429, other non-200, timeout, transport error) and on 200
build the ordered id → collection mapping.  A body without a
`collections` key yields an empty dict. -/
def getCollections (r : HttpResult) : Except PyErr (List (Json × Json)) :=
  match r with
  | .timeout => .error (.exception "Timeout connecting to DMI EDR API. Please try again.")
  | .netError m => .error (.exception ("Network error: " ++ m))
  | .resp status body =>
    if status = 429 then
      .error (.exception "Rate limit exceeded, please try again later")
    else if status ≠ 200 then
      .error (.exception ("Collections API request failed with status " ++ toString status))
    else do
      let has ← jsonContains body "collections"
      if has then do
        let colls ← jsonIndexStr body "collections"
        let items ← pyIterate colls
        buildCollectionsDict items
      else
        pure []

/-- The collection-selection step of `update()` (dmi_api.py lines 62-66):
prefer `"harmonie_dini_eps_means"`, else the first key of the dict, which
is the first id in the order the server returned.  (`update` only reaches
this point with a non-empty dict; the `[]` arm is unreachable.) -/
def selectCollectionId (collections : List (Json × Json)) : Json :=
  let preferred := Json.str "harmonie_dini_eps_means"
  if collections.any (fun p => keyEq p.1 preferred) then preferred
  else
    match collections with
    | [] => .null
    | p :: _ => p.1

/-- Embeds `DMIWeatherAPI._fetch_weather_data` (dmi_api.py lines 107-156):
classify the position-query response (429, 404, other non-200, timeout,
transport error) and on 200 process the payload. -/
def fetchWeatherData (r : HttpResult) (st : ApiState) : Except PyErr ApiState :=
  match r with
  | .timeout => .error (.exception "Timeout connecting to DMI EDR API. Please try again.")
  | .netError m => .error (.exception ("Network error: " ++ m))
  | .resp status body =>
    if status = 429 then
      .error (.exception "Rate limit exceeded, please try again later")
    else if status = 404 then
      .error (.exception "No weather data available for the requested time period. Please try again later.")
    else if status ≠ 200 then
      .error (.exception ("EDR position query failed with status " ++ toString status))
    else
      processEdrData body st

/-- Embeds `DMIWeatherAPI.update` (dmi_api.py lines 51-73).  The body performs
one resolve-and-query sequence; its `except` clause logs and re-raises, so
errors propagate unchanged.  `collResp` is the outcome of the collections
request and `weather cid` the outcome of the position query against
collection `cid` — the single attempt's environment, since the source
contains no retry loop. -/
def update (collResp : HttpResult) (weather : Json → HttpResult) (st : ApiState) :
    Except PyErr ApiState := do
  let collections ← getCollections collResp
  if collections.isEmpty then
    .error (.exception "No EDR collections available")
  else
    fetchWeatherData (weather (selectCollectionId collections)) st

/-- The caller's view of one `update()` call (weather.py `async_update`):
on success the snapshot is the new one, on failure the exception is
observed and the previous snapshot stays in place. -/
def updateRun (collResp : HttpResult) (weather : Json → HttpResult) (st : ApiState) :
    ApiState × Option PyErr :=
  match update collResp weather st with
  | .ok st' => (st', none)
  | .error e => (st, some e)

/-- Success test for `Except`. -/
def exceptOk {α : Type} (r : Except PyErr α) : Bool :=
  match r with
  | .ok _ => true
  | .error _ => false

/-- Embeds `EDR_PARAMETERS` from const.py lines 39-50, in source order. -/
def EDR_PARAMETERS : List (String × String) :=
  [("temperature", "temperature-2m"),
   ("pressure", "pressure-sealevel"),
   ("humidity", "relative-humidity-2m"),
   ("wind_speed", "wind-speed-10m"),
   ("wind_gust", "gust-wind-speed-10m"),
   ("precipitation", "total-precipitation"),
   ("cloud_cover", "fraction-of-cloud-cover"),
   ("dew_point", "dew-point-temperature-2m"),
   ("snow_precipitation", "time-integral-of-total-solid-precipitation-flux"),
   ("water_vapour", "total-column-vertically-integrated-water-vapour")]

/-- Embeds `MAX_FORECAST_DAYS` from const.py line 22. -/
def MAX_FORECAST_DAYS : ℤ := 5

/-- Proleptic-Gregorian conversion from days since 1970-01-01 to
(year, month, day), the standard era-based algorithm. -/
def civilFromDays (days : ℤ) : ℤ × ℕ × ℕ :=
  let z := days + 719468
  let era : ℤ := Int.fdiv z 146097
  let doe : ℕ := (z - era * 146097).toNat
  let yoe : ℕ := (doe - doe / 1460 + doe / 36524 - doe / 146096) / 365
  let y : ℤ := (yoe : ℤ) + era * 400
  let doy : ℕ := doe - (365 * yoe + yoe / 4 - yoe / 100)
  let mp : ℕ := (5 * doy + 2) / 153
  let d : ℕ := doy - (153 * mp + 2) / 5 + 1
  let m : ℕ := if mp < 10 then mp + 3 else mp - 9
  (if m ≤ 2 then y + 1 else y, m, d)

/-- Zero-padded two-digit decimal field. -/
def pad2 (n : ℕ) : String :=
  if n < 10 then "0" ++ toString n else toString n

/-- Zero-padded four-digit decimal field. -/
def pad4 (n : ℕ) : String :=
  if n < 10 then "000" ++ toString n
  else if n < 100 then "00" ++ toString n
  else if n < 1000 then "0" ++ toString n
  else toString n

/-- Models `strftime("%Y-%m-%dT%H:%M:%SZ")` on a datetime given as seconds since
1970-01-01T00:00:00: the wall-clock fields of that instant with a literal
`Z` appended (the format string hard-codes the `Z`; it does not reflect
the datetime's timezone). -/
def strftimeZ (t : ℤ) : String :=
  let days := Int.fdiv t 86400
  let secs := (t - days * 86400).toNat
  let (y, m, d) := civilFromDays days
  pad4 y.toNat ++ "-" ++ pad2 m ++ "-" ++ pad2 d ++ "T" ++
    pad2 (secs / 3600) ++ ":" ++ pad2 ((secs % 3600) / 60) ++ ":" ++ pad2 (secs % 60) ++ "Z"

/-- Fractional decimal digits of `num/den` (with `num < den`), up to the
given fuel.  The coordinates considered here are exact short decimals, for
which this reproduces Python's float formatting. -/
def fracDigits (num den : ℕ) : ℕ → List ℕ
  | 0 => []
  | fuel + 1 =>
    if num = 0 then []
    else
      let n' := num * 10
      n' / den :: fracDigits (n' % den) den fuel

/-- Python's `str(float)` on the exact-decimal values used in this
development: sign, integer part, and fractional digits (or `.0` for an
integer value). -/
def pyFloatStr (q : ℚ) : String :=
  let sign := if q.num < 0 then "-" else ""
  let ip := q.num.natAbs / q.den
  let rem := q.num.natAbs % q.den
  let ds := fracDigits rem q.den 17
  sign ++ toString ip ++ "." ++ (if ds.isEmpty then "0" else String.join (ds.map toString))

/-- Models `homeassistant.util.dt.now()` (external library): the current time in
the instance's configured timezone, i.e. the UTC instant shifted by the
configured offset.  `utcNow` is seconds since the epoch, `offsetMin` the
configured timezone's UTC offset in minutes. -/
def dmiNow (utcNow offsetMin : ℤ) : ℤ :=
  utcNow + 60 * offsetMin

/-- The query parameters built by `_fetch_weather_data`. -/
structure PositionParams where
  coords : String
  datetime : String
  parameterName : String
  f : String
deriving DecidableEq, Repr

/-- The query-building part of `_fetch_weather_data`
(dmi_api.py lines 114-130): `now = dt_util.now()`,
`end_time = now + timedelta(days=MAX_FORECAST_DAYS)`, both formatted with
`strftime("%Y-%m-%dT%H:%M:%SZ")`; `coords = f"POINT({lon} {lat})"`;
`parameter-name` joins `EDR_PARAMETERS.values()` with commas;
`f = "CoverageJSON"`. -/
def buildPositionParams (utcNow offsetMin : ℤ) (latitude longitude : ℚ) : PositionParams :=
  let now := dmiNow utcNow offsetMin
  let endTime := now + MAX_FORECAST_DAYS * 86400
  { coords := "POINT(" ++ pyFloatStr longitude ++ " " ++ pyFloatStr latitude ++ ")"
    datetime := strftimeZ now ++ "/" ++ strftimeZ endTime
    parameterName := String.intercalate "," (EDR_PARAMETERS.map Prod.snd)
    f := "CoverageJSON" }

/-! ### Spec-side definitions

These definitions transcribe the specification's wording (not the source)
and are compared against the embedded code in the theorems below. -/

/-- The unit-normalization rule as worded in the specification: a
temperature or dew-point raw value above 200 is reduced by 273.15, a
pressure raw value above 10000 is divided by 100, a cloud-cover raw value
at most 1 is multiplied by 100, and every other parameter is unchanged. -/
def normSpec (parameter : String) (q : ℚ) : ℚ :=
  if (parameter = "temperature-2m" ∨ parameter = "dew-point-temperature-2m") ∧ 200 < q then
    q - 273.15
  else if parameter = "pressure-sealevel" ∧ 10000 < q then
    q / 100
  else if parameter = "fraction-of-cloud-cover" ∧ q ≤ 1 then
    q * 100
  else
    q

/-- The weather-code estimator as worded in the specification: rules in
order, first match wins, null satisfies no rule; precipitation > 0.1 →
rainy (3), else cloud cover > 80 → cloudy (2), else cloud cover > 30 →
partly cloudy (1), else clear (0). -/
def estimateSpec (precipitation cloudCover : Option ℚ) : ℕ :=
  if (match precipitation with | some v => decide ((1:ℚ)/10 < v) | none => false) then 3
  else if (match cloudCover with | some v => decide ((80:ℚ) < v) | none => false) then 2
  else if (match cloudCover with | some v => decide ((30:ℚ) < v) | none => false) then 1
  else 0

/-- A `ranges` object holding a single parameter with a single-entry value
array, used to state the unit-normalization claim. -/
def mkRanges1 (parameter : String) (v : Json) : Json :=
  .obj [(parameter, .obj [("values", .arr [v])])]

/-- Decidable equality for `Except`, for evaluating the pipeline on
concrete inputs. -/
instance exceptDecEq {ε α : Type} [DecidableEq ε] [DecidableEq α] :
    DecidableEq (Except ε α) := fun x y =>
  match x, y with
  | .ok a, .ok b =>
    if h : a = b then .isTrue (congrArg Except.ok h)
    else .isFalse (fun hc => h (Except.ok.inj hc))
  | .error a, .error b =>
    if h : a = b then .isTrue (congrArg Except.error h)
    else .isFalse (fun hc => h (Except.error.inj hc))
  | .ok _, .error _ => .isFalse (fun hc => Except.noConfusion hc)
  | .error _, .ok _ => .isFalse (fun hc => Except.noConfusion hc)

/-! ### Concrete sample environments -/

/-- A collections response advertising the preferred collection. -/
def goodCollResp : HttpResult :=
  .resp 200 (.obj [("collections", .arr [.obj [("id", .str "harmonie_dini_eps_means")]])])

/-- A minimal decodable position-query body: one valid timestamp, no
parameter data. -/
def goodWeatherBody : Json :=
  .obj [("ranges", .obj []),
        ("domain", .obj [("axes", .obj [("t", .obj [("values",
          .arr [.str "2026-01-01T00:00:00Z"])])])])]

/-- The snapshot at client construction. -/
def emptySnapshot : ApiState := ⟨none, [], []⟩

/-- An hourly record with no parameter data, as decoded from a response
whose `ranges` is empty (weather code 0 = clear is still estimated). -/
def blankRec (dt : DateTime) : HourlyRecord :=
  ⟨dt, none, none, none, none, none, none, none, none, some 0, none⟩

/-- A non-empty prior snapshot. -/
def priorSnapshot : ApiState :=
  ⟨some (blankRec ⟨2025, 12, 31, 23, 0, 0⟩), [], [blankRec ⟨2025, 12, 31, 23, 0, 0⟩]⟩

/-- A position-query body whose second time-axis entry is a number, not a
string: decoding it raises an uncaught `AttributeError` mid-loop. -/
def abortWeatherBody : Json :=
  .obj [("ranges", .obj []),
        ("domain", .obj [("axes", .obj [("t", .obj [("values",
          .arr [.str "2026-01-01T00:00:00Z", .num 5])])])])]

/-- A CoverageJSON body with the given `ranges` object and time-axis
`values` entry. -/
def mkCovBody (rangesJ timeValuesJ : Json) : Json :=
  .obj [("ranges", rangesJ),
        ("domain", .obj [("axes", .obj [("t", .obj [("values", timeValuesJ)])])])]

/-- A CoverageJSON body with `ranges` but no time axis at all. -/
def mkCovBodyNoTime (rangesJ : Json) : Json :=
  .obj [("ranges", rangesJ)]

/-- First same-day hourly record of the claim's daily-aggregation
example: temperature 5.0, precipitation 1.0. -/
def recA : HourlyRecord :=
  ⟨⟨2026, 1, 1, 10, 0, 0⟩, some 5, none, none, none, none, some 1, none, none, some 0, none⟩

/-- Second same-day hourly record of the claim's daily-aggregation
example: temperature −2.0, precipitation 0.5. -/
def recB : HourlyRecord :=
  ⟨⟨2026, 1, 1, 13, 0, 0⟩, some (-2), none, none, none, none, some (1/2), none, none, some 0,
   none⟩

/-- The record the decode loop keeps for an enumerated time-axis entry:
the decoded record when the step succeeds, nothing when the index is
skipped or aborts. -/
def decodedAt (ranges : Json) (p : ℕ × Json) : Option HourlyRecord :=
  match decodeStep ranges p.2 p.1 with
  | .ok (some r) => some r
  | _ => none

/-- The bucket flushed on a date change (dmi_api.py lines 281-282):
present exactly when both `current_date` and `daily_data` are truthy. -/
def flushOf (cd : Option (ℕ × ℕ × ℕ)) (bopt : Option DailyBucket) : List DailyBucket :=
  match cd, bopt with
  | some _, some b => [b]
  | _, _ => []

/-- The final-flush step of `_create_daily_forecast`
(dmi_api.py lines 316-318). -/
def finishD (st : DState) : List DailyBucket :=
  match st.current_date, st.daily_data with
  | some _, some b => st.acc ++ [b]
  | _, _ => st.acc

/-- The bucket a day group ends up with: a fresh bucket stamped with the
group's first timestamp, folded over the group's records. -/
def bucketOf (g : List HourlyRecord) : DailyBucket :=
  match g with
  | [] => freshBucket ⟨0, 0, 0, 0, 0, 0⟩
  | r :: _ => g.foldl updateBucket (freshBucket r.time)

/-- The calendar date of a day group (date of its first record). -/
def groupDate (g : List HourlyRecord) : Option (ℕ × ℕ × ℕ) :=
  g.head?.map (fun r => r.time.date)

/-- Adjacent day groups fall on different calendar dates. -/
def adjDistinct : List (List HourlyRecord) → Bool
  | g1 :: g2 :: rest => groupDate g1 ≠ groupDate g2 && adjDistinct (g2 :: rest)
  | _ => true

/-- A list of day groups as the daily aggregator sees them: every group
non-empty with a single calendar date, and adjacent groups on different
dates (the shape of any time-ascending hourly sequence). -/
def WellGrouped (groups : List (List HourlyRecord)) : Prop :=
  (∀ g ∈ groups, g ≠ [] ∧ ∀ r ∈ g, groupDate g = some r.time.date) ∧
    adjDistinct groups = true

/-- Well-groupedness is checkable on concrete inputs. -/
instance wellGroupedDecidable (groups : List (List HourlyRecord)) :
    Decidable (WellGrouped groups) :=
  inferInstanceAs (Decidable
    ((∀ g ∈ groups, g ≠ [] ∧ ∀ r ∈ g, groupDate g = some r.time.date) ∧
      adjDistinct groups = true))

/-- The specification's description of one day's `DailyRecord`:
max/min over the group's non-null temperatures (`none` when there are no
samples), the sum of its non-null precipitation (0 when there are none),
and the last non-null wind speed, wind direction and weather code (with
the initialization values 0, 0 and `none` respectively when a day has no
sample). -/
def summarize (g : List HourlyRecord) : DailyRecord :=
  match g with
  | [] => ⟨⟨0, 0, 0, 0, 0, 0⟩, none, none, 0, 0, 0, none⟩
  | r :: _ =>
    { time := r.time
      temperature_max := (g.filterMap (fun x => x.temperature)).max?
      temperature_min := (g.filterMap (fun x => x.temperature)).min?
      precipitation := (g.filterMap (fun x => x.precipitation)).sum
      wind_speed := ((g.filterMap (fun x => x.wind_speed)).getLast?).getD 0
      wind_direction := ((g.filterMap (fun x => x.wind_direction)).getLast?).getD 0
      weather_code := (g.filterMap (fun x => x.weather_code)).getLast? }

/-! ### Theorems -/

/-- C6: unit normalization, applied only to non-null raw values, follows
the claimed per-parameter rules (temperature/dew point above 200 minus
273.15, pressure above 10000 divided by 100, cloud cover at most 1 times
100) and leaves every other parameter unchanged: for every parameter code
and raw rational value, `_extract_parameter_value` returns exactly the
spec-side `normSpec`, a null raw value yields `None` untouched, and the
claim's worked examples evaluate as stated. -/
theorem c6_unit_normalization :
    (∀ (p : String) (q : ℚ),
      extractParameterValue (mkRanges1 p (Json.num q)) p 0 = .ok (some (normSpec p q)))
    ∧ (∀ p : String, extractParameterValue (mkRanges1 p Json.null) p 0 = .ok none)
    ∧ extractParameterValue (mkRanges1 "temperature-2m" (Json.num 280)) "temperature-2m" 0
        = .ok (some 6.85)
    ∧ extractParameterValue (mkRanges1 "temperature-2m" (Json.num 15)) "temperature-2m" 0
        = .ok (some 15)
    ∧ extractParameterValue (mkRanges1 "pressure-sealevel" (Json.num 101300)) "pressure-sealevel" 0
        = .ok (some 1013)
    ∧ extractParameterValue (mkRanges1 "pressure-sealevel" (Json.num 1013)) "pressure-sealevel" 0
        = .ok (some 1013)
    ∧ extractParameterValue (mkRanges1 "fraction-of-cloud-cover" (Json.num 0.75))
        "fraction-of-cloud-cover" 0 = .ok (some 75)
    ∧ extractParameterValue (mkRanges1 "fraction-of-cloud-cover" (Json.num 75))
        "fraction-of-cloud-cover" 0 = .ok (some 75) := by
  have hmain : ∀ (p : String) (q : ℚ),
      extractParameterValue (mkRanges1 p (Json.num q)) p 0 = .ok (some (normSpec p q)) := by
    intro p q
    simp only [extractParameterValue, mkRanges1, jsonContains, jsonIndexStr, pyLen, pyIndexNat,
      List.any_cons, List.any_nil, List.find?_cons, decide_eq_true_eq, decide_True,
      Bool.or_false, Bool.not_true, bind, Except.bind, pure, List.get?, Bool.false_eq_true,
      if_false, List.length, ge_iff_le, Nat.le_zero, OfNat.ofNat_ne_zero]
    simp only [convertUnits, pyFloat, asNum, normSpec, bind, Except.bind]
    by_cases h1 : p = "temperature-2m"
    · subst h1
      by_cases hq : (200:ℚ) < q
      · simp [hq, pure, Except.pure]
      · simp [hq, pyFloat, pure, Except.pure]
    · by_cases h2 : p = "pressure-sealevel"
      · subst h2
        by_cases hq : (10000:ℚ) < q
        · simp [h1, hq, pure, Except.pure]
        · simp [h1, hq, pyFloat, pure, Except.pure]
      · by_cases h3 : p = "fraction-of-cloud-cover"
        · subst h3
          by_cases hq : q ≤ 1
          · simp [h1, h2, hq, pure, Except.pure]
          · simp [h1, h2, hq, pyFloat, pure, Except.pure]
        · by_cases h4 : p = "dew-point-temperature-2m"
          · subst h4
            by_cases hq : (200:ℚ) < q
            · simp [h1, h2, h3, hq, pure, Except.pure]
            · simp [h1, h2, h3, hq, pyFloat, pure, Except.pure]
          · simp [h1, h2, h3, h4, pyFloat, pure, Except.pure]
  have hnull : ∀ p : String,
      extractParameterValue (mkRanges1 p Json.null) p 0 = .ok none := by
    intro p
    simp only [extractParameterValue, mkRanges1, jsonContains, jsonIndexStr, pyLen, pyIndexNat,
      List.any_cons, List.any_nil, List.find?_cons, decide_eq_true_eq, decide_True,
      Bool.or_false, Bool.not_true, bind, Except.bind, pure, List.get?, Bool.false_eq_true,
      if_false, List.length, ge_iff_le, Nat.le_zero, OfNat.ofNat_ne_zero]
    split <;> rfl
  have e1 : normSpec "temperature-2m" 280 = 6.85 := by
    unfold normSpec
    rw [if_pos ⟨Or.inl rfl, by norm_num⟩]
    norm_num
  have e2 : normSpec "temperature-2m" 15 = 15 := by
    unfold normSpec
    rw [if_neg (fun h => absurd h.2 (by norm_num)),
        if_neg (fun h => absurd h.1 (by decide)),
        if_neg (fun h => absurd h.1 (by decide))]
  have e3 : normSpec "pressure-sealevel" 101300 = 1013 := by
    unfold normSpec
    rw [if_neg (fun h => absurd h.1 (by decide)), if_pos ⟨rfl, by norm_num⟩]
    norm_num
  have e4 : normSpec "pressure-sealevel" 1013 = 1013 := by
    unfold normSpec
    rw [if_neg (fun h => absurd h.1 (by decide)),
        if_neg (fun h => absurd h.2 (by norm_num)),
        if_neg (fun h => absurd h.1 (by decide))]
  have e5 : normSpec "fraction-of-cloud-cover" 0.75 = 75 := by
    unfold normSpec
    rw [if_neg (fun h => absurd h.1 (by decide)),
        if_neg (fun h => absurd h.1 (by decide)),
        if_pos ⟨rfl, by norm_num⟩]
    norm_num
  have e6 : normSpec "fraction-of-cloud-cover" 75 = 75 := by
    unfold normSpec
    rw [if_neg (fun h => absurd h.1 (by decide)),
        if_neg (fun h => absurd h.1 (by decide)),
        if_neg (fun h => absurd h.2 (by norm_num))]
  exact ⟨hmain, hnull,
    (hmain _ _).trans (by rw [e1]), (hmain _ _).trans (by rw [e2]),
    (hmain _ _).trans (by rw [e3]), (hmain _ _).trans (by rw [e4]),
    (hmain _ _).trans (by rw [e5]), (hmain _ _).trans (by rw [e6])⟩

/-- C7: the weather-code estimator evaluates its rules in order with
first match winning and null (and, via Python truthiness, a zero value,
which changes no outcome) treated as not satisfying any rule; it agrees
with the spec-side `estimateSpec` on all inputs, and the claim's four
examples produce the rainy (3), cloudy (2), partly-cloudy (1) and clear
(0) codes. -/
theorem c7_weather_code :
    (∀ (p c : Option ℚ), estimateWeatherCode p c = estimateSpec p c)
    ∧ estimateWeatherCode (some 0.2) (some 50) = 3
    ∧ estimateWeatherCode (some 0) (some 85) = 2
    ∧ estimateWeatherCode (some 0) (some 50) = 1
    ∧ estimateWeatherCode (some 0) (some 10) = 0 := by
  refine ⟨?_, ?_, ?_, ?_, ?_⟩
  · intro p c
    have hval : ∀ (o : Option ℚ) (t : ℚ), 0 < t →
        pyTruthyAndGt o t = (match o with | some v => decide (t < v) | none => false) := by
      intro o t ht
      cases o with
      | none => rfl
      | some v =>
        simp only [pyTruthyAndGt]
        by_cases hv : v = 0
        · subst hv
          simp [ht, not_lt.mpr (le_of_lt ht)]
        · simp [hv]
    simp only [estimateWeatherCode, estimateSpec, hval _ _ (by norm_num : (0:ℚ) < 1/10),
      hval _ _ (by norm_num : (0:ℚ) < 80), hval _ _ (by norm_num : (0:ℚ) < 30)]
  · simp only [estimateWeatherCode, pyTruthyAndGt, Bool.and_eq_true, decide_eq_true_eq]
    rw [if_pos ⟨by norm_num, by norm_num⟩]
  · simp only [estimateWeatherCode, pyTruthyAndGt, Bool.and_eq_true, decide_eq_true_eq]
    rw [if_neg (fun h => h.1 rfl), if_pos ⟨by norm_num, by norm_num⟩]
  · simp only [estimateWeatherCode, pyTruthyAndGt, Bool.and_eq_true, decide_eq_true_eq]
    rw [if_neg (fun h => h.1 rfl), if_neg (fun h => absurd h.2 (by norm_num)),
        if_pos ⟨by norm_num, by norm_num⟩]
  · simp only [estimateWeatherCode, pyTruthyAndGt, Bool.and_eq_true, decide_eq_true_eq]
    rw [if_neg (fun h => h.1 rfl), if_neg (fun h => absurd h.2 (by norm_num)),
        if_neg (fun h => absurd h.2 (by norm_num))]

/-- Inserting into a non-empty Python dict never changes the first key:
an existing key keeps its position, a new key is appended. -/
lemma dictInsert_head (k0 w : Json) (t : List (Json × Json)) (k v : Json) :
    ∃ w' t', dictInsert ((k0, w) :: t) k v = (k0, w') :: t' := by
  unfold dictInsert
  by_cases h : ((k0, w) :: t).any (fun p => keyEq p.1 k) = true
  · rw [if_pos h, List.map_cons]
    by_cases hk : keyEq k0 k = true
    · exact ⟨v, List.map (fun p => if keyEq p.1 k = true then (p.1, v) else p) t, by simp [hk]⟩
    · exact ⟨w, List.map (fun p => if keyEq p.1 k = true then (p.1, v) else p) t, by simp [hk]⟩
  · rw [if_neg h, List.cons_append]
    exact ⟨w, _, rfl⟩

/-- One successful dict-building step preserves the first key of a
non-empty dict. -/
lemma collInsertStep_head (k0 w : Json) (t : List (Json × Json)) (c : Json)
    (d : List (Json × Json)) (h : collInsertStep ((k0, w) :: t) c = .ok d) :
    ∃ w' t', d = (k0, w') :: t' := by
  unfold collInsertStep at h
  rcases hid : jsonIndexStr c "id" with e | i
  · rw [hid] at h
    simp [bind, Except.bind] at h
  · rw [hid] at h
    simp only [bind, Except.bind] at h
    cases i with
    | arr xs => simp at h
    | obj fs => simp at h
    | null =>
      simp only [pure, Except.pure, Except.ok.injEq] at h
      exact h ▸ dictInsert_head k0 w t _ c
    | num q =>
      simp only [pure, Except.pure, Except.ok.injEq] at h
      exact h ▸ dictInsert_head k0 w t _ c
    | str s =>
      simp only [pure, Except.pure, Except.ok.injEq] at h
      exact h ▸ dictInsert_head k0 w t _ c

/-- The whole dict-building fold preserves the first key of a non-empty
dict. -/
lemma collFold_head (items : List Json) :
    ∀ (k0 w : Json) (t d : List (Json × Json)),
    List.foldlM collInsertStep ((k0, w) :: t) items = .ok d →
    ∃ w' t', d = (k0, w') :: t' := by
  induction items with
  | nil =>
    intro k0 w t d h
    exact ⟨w, t, (Except.ok.inj h).symm⟩
  | cons c cs ih =>
    intro k0 w t d h
    rw [List.foldlM] at h
    rcases hstep : collInsertStep ((k0, w) :: t) c with e | d1
    · rw [hstep] at h
      simp [bind, Except.bind] at h
    · rw [hstep] at h
      simp only [bind, Except.bind] at h
      obtain ⟨w1, t1, hd1⟩ := collInsertStep_head k0 w t c d1 hstep
      subst hd1
      exact ih k0 w1 t1 d h

/-- C9: when the preferred collection id `"harmonie_dini_eps_means"` is
absent from the resolved collections, the resolver selects exactly the
first collection id in the order the server returned the collections
array: for any response whose first collection carries id `i0`, a
successful dict build whose keys do not include the preferred id makes
`update`'s selection step choose `i0` — the dict preserves arrival order,
so no sorting or rehashing can intervene. -/
theorem c9_collection_fallback (c0 : Json) (rest : List Json)
    (d : List (Json × Json)) (i0 : Json)
    (hbuild : buildCollectionsDict (c0 :: rest) = .ok d)
    (hid : jsonIndexStr c0 "id" = .ok i0)
    (habs : d.any (fun p => keyEq p.1 (Json.str "harmonie_dini_eps_means")) = false) :
    selectCollectionId d = i0 := by
  unfold buildCollectionsDict at hbuild
  rw [List.foldlM] at hbuild
  have hstep : collInsertStep [] c0 = .ok (dictInsert [] i0 c0) ∨
      collInsertStep [] c0 = .error .typeError := by
    unfold collInsertStep
    rw [hid]
    cases i0 <;> simp [bind, Except.bind, pure, Except.pure]
  rcases hstep with hstep | hstep
  · rw [hstep] at hbuild
    simp only [bind, Except.bind] at hbuild
    have hins : dictInsert [] i0 c0 = [(i0, c0)] := by
      unfold dictInsert
      simp
    rw [hins] at hbuild
    obtain ⟨w', t', hd⟩ := collFold_head rest i0 c0 [] d hbuild
    subst hd
    simp only [selectCollectionId]
    simp [habs]
  · rw [hstep] at hbuild
    simp [bind, Except.bind] at hbuild

/-- Witness for C9: a server returning ids `["zzz_model", "aaa_model"]`
(reverse-lexicographic order) without the preferred id makes the resolver
pick `"zzz_model"`, the first in server order — a sorted resolver would
have picked `"aaa_model"`. -/
theorem c9_witness :
    selectCollectionId
      [(Json.str "zzz_model", Json.obj [("id", Json.str "zzz_model")]),
       (Json.str "aaa_model", Json.obj [("id", Json.str "aaa_model")])] = .str "zzz_model" :=
  c9_collection_fallback (.obj [("id", .str "zzz_model")]) [.obj [("id", .str "aaa_model")]]
    _ (.str "zzz_model") rfl rfl rfl

/-! ### C1: retry/backoff -/

/-- C1 counterexample: the claim's retry scenario — 429 on attempts 1-2,
success on attempt 3, `max_retries = 3` — predicts a successful
`update()`.  The code has no retry loop: its single attempt runs against
the first environment and fails, even though the attempt-3 environment
(second conjunct) would have succeeded.  The first conjunct evaluates
`update` in the attempt-1 environment (both requests answer 429) and
observes the failure the claim rules out. -/
theorem c1_counterexample :
    exceptOk (update (.resp 429 .null) (fun _ => .resp 429 .null) emptySnapshot) = false
    ∧ exceptOk (update goodCollResp (fun _ => .resp 200 goodWeatherBody) emptySnapshot) = true :=
  ⟨rfl, rfl⟩

/-- C1 amended: `update()` performs exactly one attempt of the
resolve-and-query sequence — its type takes the single attempt's
environment, because the source has no loop — and when the collections
request of that attempt fails, `update` raises exactly that error to the
caller; there is no second attempt and no backoff sleep between attempts.
-/
theorem c1_single_attempt (r : HttpResult) (w : Json → HttpResult) (st : ApiState)
    (e : PyErr) (h : getCollections r = .error e) :
    update r w st = .error e := by
  unfold update
  rw [h]
  rfl

/-- Witness for C1: a 429 on the collections request of the single
attempt surfaces the rate-limit error directly. -/
theorem c1_witness :
    update (.resp 429 .null) (fun _ => .resp 429 .null) emptySnapshot
      = .error (.exception "Rate limit exceeded, please try again later") :=
  c1_single_attempt (.resp 429 .null) (fun _ => .resp 429 .null) emptySnapshot
    (.exception "Rate limit exceeded, please try again later") rfl

/-! ### C2: snapshot retention on failure -/

/-- C2: if `update()` fails, the caller-observable snapshot is exactly
the pre-call snapshot — no partial overwrite of `current_data`,
`hourly_forecast_data` or `forecast_data` is visible.  In the source every
raising statement precedes the first snapshot assignment, and the three
assignments are separated only by total operations, which the embedding
preserves: every error path of `update` returns before the snapshot
record is built. -/
theorem c2_snapshot_on_failure (collResp : HttpResult) (weather : Json → HttpResult)
    (st : ApiState) (e : PyErr) (h : update collResp weather st = .error e) :
    updateRun collResp weather st = (st, some e) := by
  unfold updateRun
  rw [h]

/-- Witness for C2: an abort in the middle of the decode loop (valid
index 0 already decoded, index 1 a non-string) fails `update` and leaves
a non-empty prior snapshot fully intact. -/
theorem c2_witness :
    updateRun goodCollResp (fun _ => .resp 200 abortWeatherBody) priorSnapshot
      = (priorSnapshot, some .attributeError) :=
  c2_snapshot_on_failure goodCollResp (fun _ => .resp 200 abortWeatherBody) priorSnapshot
    .attributeError rfl

/-! ### C3: behaviour on empty axis and zero records -/

/-- If the decode loop over a non-empty axis produces no records, its
first step was a caught-and-skipped index. -/
lemma decodeLoop_nil_head (ranges t0 : Json) (rest : List Json) (i : ℕ)
    (h : decodeLoop ranges (t0 :: rest) i = .ok []) :
    decodeStep ranges t0 i = .ok none := by
  rcases hs : decodeStep ranges t0 i with e | o
  · rw [decodeLoop, hs] at h
    exact absurd h (fun hc => Except.noConfusion hc)
  · cases o with
    | none => rfl
    | some r =>
      rw [decodeLoop, hs] at h
      rcases hl : decodeLoop ranges rest (i + 1) with e | rs <;> rw [hl] at h <;>
        simp at h

/-- C3 counterexample: a payload with an empty time axis and a payload
whose single index is malformed (zero usable records) both make
`_process_edr_data` return successfully — no MalformedResponse-style
error is raised in either case, contradicting the claim. -/
theorem c3_counterexample :
    processEdrData (mkCovBody (.obj []) (.arr [])) priorSnapshot = .ok priorSnapshot
    ∧ exceptOk (processEdrData (mkCovBody (.obj []) (.arr [.str "nope"])) priorSnapshot)
        = true :=
  ⟨rfl, rfl⟩

/-- C3 amended: when the time axis is empty or absent (or the payload has
no usable `ranges`), decoding returns without error and leaves the
snapshot unchanged; when the axis is non-empty but every index is
individually malformed (zero usable records), decoding also returns
without error and replaces the snapshot with empty current/hourly/daily
data. -/
theorem c3_no_error_on_empty :
    (∀ (st : ApiState) (rangesJ : Json),
      processEdrData (mkCovBody rangesJ (.arr [])) st = .ok st)
    ∧ (∀ (st : ApiState) (rangesJ : Json),
      processEdrData (mkCovBodyNoTime rangesJ) st = .ok st)
    ∧ (∀ (st : ApiState) (rangesJ : Json) (tvs : List Json),
      tvs ≠ [] → decodeLoop rangesJ tvs 0 = .ok [] →
      processEdrData (mkCovBody rangesJ (.arr tvs)) st = .ok ⟨none, [], []⟩) := by
  refine ⟨?_, ?_, ?_⟩
  · intro st rangesJ
    simp [processEdrData, mkCovBody, Json.falsy, jsonContains, jsonIndexStr, jsonGetDefault,
      bind, Except.bind, pure, Except.pure]
  · intro st rangesJ
    simp [processEdrData, mkCovBodyNoTime, Json.falsy, jsonContains, jsonIndexStr,
      jsonGetDefault, bind, Except.bind, pure, Except.pure]
  · intro st rangesJ tvs htvs hloop
    obtain ⟨t0, rest, rfl⟩ : ∃ t0 rest, tvs = t0 :: rest := by
      cases tvs with
      | nil => exact absurd rfl htvs
      | cons t0 rest => exact ⟨t0, rest, rfl⟩
    have hstep := decodeLoop_nil_head rangesJ t0 rest 0 hloop
    simp [processEdrData, mkCovBody, Json.falsy, jsonContains, jsonIndexStr, jsonGetDefault,
      pyIterate, bind, Except.bind, pure, Except.pure, hloop, hstep, createDailyForecast,
      dailyStep]

/-- Witness for C3: a single unparseable timestamp yields a successful
decode that empties the snapshot. -/
theorem c3_witness :
    processEdrData (mkCovBody (.obj []) (.arr [.str "nope"])) priorSnapshot
      = .ok ⟨none, [], []⟩ :=
  c3_no_error_on_empty.2.2 priorSnapshot (.obj []) [.str "nope"]
    (List.cons_ne_nil _ _) rfl

/-! ### C4: position-query construction -/

/-- C4: evaluation of the query builder at a failing input.  With the
configured timezone at UTC+2 (offset 120 minutes) and the UTC instant
1970-01-01T00:00:00Z, the code's `datetime` parameter is the local wall
time with a literal `Z` (first conjunct), which differs from the UTC
string the claim requires (second and third conjuncts): `dt_util.now()`
returns local time and `strftime("...Z")` hard-codes the `Z`.  The
remaining conjuncts confirm the rest of the claim at this input:
longitude-first WKT `coords`, the comma-joined `parameter-name` in
`EDR_PARAMETERS` order, `f = "CoverageJSON"`, and in general the
`datetime` window is the (local) start plus exactly the 5-day horizon. -/
theorem c4_divergence :
    (buildPositionParams 0 120 55 12).datetime
        = "1970-01-01T02:00:00Z/1970-01-06T02:00:00Z"
    ∧ strftimeZ 0 ++ "/" ++ strftimeZ 432000 = "1970-01-01T00:00:00Z/1970-01-06T00:00:00Z"
    ∧ (buildPositionParams 0 120 55 12).datetime ≠ strftimeZ 0 ++ "/" ++ strftimeZ 432000
    ∧ (buildPositionParams 0 120 55 12).coords = "POINT(12.0 55.0)"
    ∧ (buildPositionParams 0 120 55 12).parameterName
        = "temperature-2m,pressure-sealevel,relative-humidity-2m,wind-speed-10m,gust-wind-speed-10m,total-precipitation,fraction-of-cloud-cover,dew-point-temperature-2m,time-integral-of-total-solid-precipitation-flux,total-column-vertically-integrated-water-vapour"
    ∧ (buildPositionParams 0 120 55 12).f = "CoverageJSON"
    ∧ (∀ (utcNow offsetMin : ℤ) (lat lon : ℚ),
        (buildPositionParams utcNow offsetMin lat lon).datetime
          = strftimeZ (dmiNow utcNow offsetMin) ++ "/"
            ++ strftimeZ (dmiNow utcNow offsetMin + 5 * 86400)) :=
  ⟨rfl, rfl, by decide, rfl, rfl, rfl, fun _ _ _ _ => rfl⟩

/-! ### Daily-aggregation lemmas -/

/-- Field-wise description of one bucket update. -/
lemma updateBucket_fields (b : DailyBucket) (h : HourlyRecord) :
    updateBucket b h =
      { time := b.time
        temperature_max :=
          match h.temperature with
          | some t => pymax b.temperature_max t
          | none => b.temperature_max
        temperature_min :=
          match h.temperature with
          | some t => pymin b.temperature_min t
          | none => b.temperature_min
        precipitation :=
          match h.precipitation with
          | some p => b.precipitation + p
          | none => b.precipitation
        wind_speed :=
          match h.wind_speed with
          | some w => w
          | none => b.wind_speed
        wind_direction :=
          match h.wind_direction with
          | some w => w
          | none => b.wind_direction
        weather_code :=
          match h.weather_code with
          | some c => some c
          | none => b.weather_code } := by
  unfold updateBucket updTemp updPrecip updWind updWindDir updCode
  rcases h.temperature with _ | t <;> rcases h.precipitation with _ | p <;>
    rcases h.wind_speed with _ | w <;> rcases h.wind_direction with _ | wd <;>
    rcases h.weather_code with _ | c <;> rfl

/-- Computes `getLast?` of a cons through the tail's `getLast?`. -/
lemma getLast?_consE {α : Type} (v : α) (l : List α) :
    (v :: l).getLast? = match l.getLast? with | some x => some x | none => some v := by
  induction l generalizing v with
  | nil => rfl
  | cons w ws ih =>
    rw [List.getLast?_cons_cons, ih w]
    rcases ws.getLast? with _ | x <;> rfl

/-- Computes `getD` through a cons on `getLast?`. -/
lemma getLast?_getD_cons {α : Type} (v d : α) (l : List α) :
    ((v :: l).getLast?).getD d = (l.getLast?).getD v := by
  rw [getLast?_consE]
  rcases l.getLast? with _ | x <;> rfl

/-- Folding `pymax` from a finite value is an ordinary max fold. -/
lemma pymax_foldl_fin (l : List ℚ) : ∀ m : ℚ, l.foldl pymax (.fin m) = .fin (l.foldl max m) := by
  induction l with
  | nil => intro m; rfl
  | cons x xs ih => intro m; exact ih (max m x)

/-- Folding `pymax` from the `-inf` sentinel computes `max?`. -/
lemma pymax_foldl_ninf (l : List ℚ) :
    l.foldl pymax .ninf = match l.max? with | some m => PyFloatInf.fin m | none => .ninf := by
  cases l with
  | nil => rfl
  | cons x xs => exact pymax_foldl_fin xs x

/-- Folding `pymin` from a finite value is an ordinary min fold. -/
lemma pymin_foldl_fin (l : List ℚ) : ∀ m : ℚ, l.foldl pymin (.fin m) = .fin (l.foldl min m) := by
  induction l with
  | nil => intro m; rfl
  | cons x xs ih => intro m; exact ih (min m x)

/-- Folding `pymin` from the `inf` sentinel computes `min?`. -/
lemma pymin_foldl_pinf (l : List ℚ) :
    l.foldl pymin .pinf = match l.min? with | some m => PyFloatInf.fin m | none => .pinf := by
  cases l with
  | nil => rfl
  | cons x xs => exact pymin_foldl_fin xs x

/-- A bucket fold never changes the bucket's timestamp. -/
lemma foldl_bucket_time (g : List HourlyRecord) :
    ∀ b : DailyBucket, (g.foldl updateBucket b).time = b.time := by
  induction g with
  | nil => intro b; rfl
  | cons r rs ih =>
    intro b
    rw [List.foldl_cons, ih, updateBucket_fields]

/-- The fold's running temperature max is a `pymax` fold over the group's
non-null temperatures. -/
lemma foldl_bucket_tmax (g : List HourlyRecord) :
    ∀ b : DailyBucket, (g.foldl updateBucket b).temperature_max
      = (g.filterMap (fun x => x.temperature)).foldl pymax b.temperature_max := by
  induction g with
  | nil => intro b; rfl
  | cons r rs ih =>
    intro b
    rw [List.foldl_cons, ih, List.filterMap_cons, updateBucket_fields]
    rcases hr : r.temperature with _ | t <;> simp [hr]

/-- The fold's running temperature min is a `pymin` fold over the group's
non-null temperatures. -/
lemma foldl_bucket_tmin (g : List HourlyRecord) :
    ∀ b : DailyBucket, (g.foldl updateBucket b).temperature_min
      = (g.filterMap (fun x => x.temperature)).foldl pymin b.temperature_min := by
  induction g with
  | nil => intro b; rfl
  | cons r rs ih =>
    intro b
    rw [List.foldl_cons, ih, List.filterMap_cons, updateBucket_fields]
    rcases hr : r.temperature with _ | t <;> simp [hr]

/-- The fold's precipitation is the bucket's plus the sum of the group's
non-null precipitation. -/
lemma foldl_bucket_precip (g : List HourlyRecord) :
    ∀ b : DailyBucket, (g.foldl updateBucket b).precipitation
      = b.precipitation + (g.filterMap (fun x => x.precipitation)).sum := by
  induction g with
  | nil => intro b; simp
  | cons r rs ih =>
    intro b
    rw [List.foldl_cons, ih, List.filterMap_cons, updateBucket_fields]
    rcases hr : r.precipitation with _ | p
    · simp [hr]
    · simp [hr]
      ring

/-- The fold's wind speed is the group's last non-null wind speed, or the
bucket's value when there is none. -/
lemma foldl_bucket_ws (g : List HourlyRecord) :
    ∀ b : DailyBucket, (g.foldl updateBucket b).wind_speed
      = ((g.filterMap (fun x => x.wind_speed)).getLast?).getD b.wind_speed := by
  induction g with
  | nil => intro b; rfl
  | cons r rs ih =>
    intro b
    rw [List.foldl_cons, ih, List.filterMap_cons, updateBucket_fields]
    rcases hr : r.wind_speed with _ | w <;> simp [hr, getLast?_getD_cons]

/-- The fold's wind direction is the group's last non-null wind
direction, or the bucket's value when there is none. -/
lemma foldl_bucket_wd (g : List HourlyRecord) :
    ∀ b : DailyBucket, (g.foldl updateBucket b).wind_direction
      = ((g.filterMap (fun x => x.wind_direction)).getLast?).getD b.wind_direction := by
  induction g with
  | nil => intro b; rfl
  | cons r rs ih =>
    intro b
    rw [List.foldl_cons, ih, List.filterMap_cons, updateBucket_fields]
    rcases hr : r.wind_direction with _ | w <;> simp [hr, getLast?_getD_cons]

/-- The fold's weather code is the group's last non-null code, or the
bucket's value when there is none. -/
lemma foldl_bucket_wc (g : List HourlyRecord) :
    ∀ b : DailyBucket, (g.foldl updateBucket b).weather_code
      = match (g.filterMap (fun x => x.weather_code)).getLast? with
        | some c => some c
        | none => b.weather_code := by
  induction g with
  | nil => intro b; rfl
  | cons r rs ih =>
    intro b
    rw [List.foldl_cons, ih, List.filterMap_cons, updateBucket_fields]
    rcases hr : r.weather_code with _ | c
    · simp [hr]
    · simp only [hr]
      rw [getLast?_consE]
      rcases hL : (rs.filterMap (fun x => x.weather_code)).getLast? with _ | x <;> simp [hL]

/-- Cleaning the bucket a non-empty day group folds into yields exactly
the specification's summary of that group. -/
lemma clean_bucketOf (r0 : HourlyRecord) (rs : List HourlyRecord) :
    cleanBucket (bucketOf (r0 :: rs)) = summarize (r0 :: rs) := by
  show cleanBucket ((r0 :: rs).foldl updateBucket (freshBucket r0.time)) = _
  unfold cleanBucket summarize
  simp only [DailyRecord.mk.injEq]
  refine ⟨?_, ?_, ?_, ?_, ?_, ?_, ?_⟩
  · rw [foldl_bucket_time]
    rfl
  · rw [foldl_bucket_tmax]
    simp only [freshBucket]
    rw [pymax_foldl_ninf]
    rcases hM : ((r0 :: rs).filterMap (fun x => x.temperature)).max? with _ | m <;> simp [hM]
  · rw [foldl_bucket_tmin]
    simp only [freshBucket]
    rw [pymin_foldl_pinf]
    rcases hM : ((r0 :: rs).filterMap (fun x => x.temperature)).min? with _ | m <;> simp [hM]
  · rw [foldl_bucket_precip]
    simp [freshBucket]
  · rw [foldl_bucket_ws]
    simp [freshBucket]
  · rw [foldl_bucket_wd]
    simp [freshBucket]
  · rw [foldl_bucket_wc]
    simp only [freshBucket]
    rcases hL : ((r0 :: rs).filterMap (fun x => x.weather_code)).getLast? with _ | x <;> simp [hL]

/-- A record on the bucket's current date folds into the live bucket
without flushing. -/
lemma dailyStep_same (d : ℕ × ℕ × ℕ) (b : DailyBucket) (acc : List DailyBucket)
    (h : HourlyRecord) (hd : h.time.date = d) :
    dailyStep ⟨some d, some b, acc⟩ h = ⟨some d, some (updateBucket b h), acc⟩ := by
  unfold dailyStep
  simp [hd]

/-- A record on a new date flushes the live bucket (when there is one)
and opens a fresh bucket stamped with the record's timestamp. -/
lemma dailyStep_new (cd : Option (ℕ × ℕ × ℕ)) (bopt : Option DailyBucket)
    (acc : List DailyBucket) (h : HourlyRecord) (hne : some h.time.date ≠ cd) :
    dailyStep ⟨cd, bopt, acc⟩ h =
      ⟨some h.time.date, some (updateBucket (freshBucket h.time) h),
       acc ++ flushOf cd bopt⟩ := by
  rcases cd with _ | d0 <;> rcases bopt with _ | b0 <;>
    · unfold dailyStep flushOf
      simp [hne]

/-- Folding a same-date group into an open bucket only updates the
bucket. -/
lemma dailyRun_same (g : List HourlyRecord) :
    ∀ (d : ℕ × ℕ × ℕ) (b : DailyBucket) (acc : List DailyBucket),
    (∀ r ∈ g, r.time.date = d) →
    g.foldl dailyStep ⟨some d, some b, acc⟩ = ⟨some d, some (g.foldl updateBucket b), acc⟩ := by
  induction g with
  | nil => intro d b acc _; rfl
  | cons r rs ih =>
    intro d b acc hall
    rw [List.foldl_cons, dailyStep_same d b acc r (hall r (List.mem_cons_self r rs)),
      List.foldl_cons]
    exact ih d (updateBucket b r) acc (fun x hx => hall x (List.mem_cons_of_mem _ hx))

/-- Folding a whole day group from a state on a different date flushes
the previous bucket and produces the group's own bucket. -/
lemma dailyRun_new (r0 : HourlyRecord) (rs : List HourlyRecord)
    (cd : Option (ℕ × ℕ × ℕ)) (bopt : Option DailyBucket) (acc : List DailyBucket)
    (hall : ∀ r ∈ r0 :: rs, r.time.date = r0.time.date)
    (hne : some r0.time.date ≠ cd) :
    (r0 :: rs).foldl dailyStep ⟨cd, bopt, acc⟩ =
      ⟨some r0.time.date, some ((r0 :: rs).foldl updateBucket (freshBucket r0.time)),
       acc ++ flushOf cd bopt⟩ := by
  rw [List.foldl_cons, dailyStep_new cd bopt acc r0 hne, List.foldl_cons]
  exact dailyRun_same rs r0.time.date (updateBucket (freshBucket r0.time) r0)
    (acc ++ flushOf cd bopt) (fun x hx => hall x (List.mem_cons_of_mem _ hx))

/-- Unpacking `adjDistinct` over a cons. -/
lemma adjDistinct_cons (g : List HourlyRecord) (gs : List (List HourlyRecord))
    (h : adjDistinct (g :: gs) = true) :
    (∀ g0 ∈ gs.head?, groupDate g ≠ groupDate g0) ∧ adjDistinct gs = true := by
  cases gs with
  | nil => exact ⟨fun g0 hg0 => absurd hg0 (by simp), rfl⟩
  | cons g2 rest =>
    rw [adjDistinct] at h
    simp only [Bool.and_eq_true, decide_eq_true_eq] at h
    refine ⟨fun g0 hg0 => ?_, h.2⟩
    rw [List.head?_cons, Option.mem_def, Option.some.injEq] at hg0
    rw [← hg0]
    exact h.1

/-- Running the grouping fold over a list of well-formed day groups from
an open bucket appends one bucket per group, in order. -/
lemma runGroups (groups : List (List HourlyRecord)) :
    ∀ (d : ℕ × ℕ × ℕ) (b : DailyBucket) (acc : List DailyBucket),
    (∀ g ∈ groups, g ≠ [] ∧ ∀ r ∈ g, groupDate g = some r.time.date) →
    adjDistinct groups = true →
    (∀ g0 ∈ groups.head?, groupDate g0 ≠ some d) →
    finishD (groups.flatten.foldl dailyStep ⟨some d, some b, acc⟩)
      = acc ++ b :: groups.map bucketOf := by
  induction groups with
  | nil =>
    intro d b acc _ _ _
    simp [finishD]
  | cons g gs ih =>
    intro d b acc hOK hchain hhd
    obtain ⟨hgne, hgdate⟩ := hOK g (List.mem_cons_self _ _)
    obtain ⟨r0, rs, rfl⟩ : ∃ r0 rs, g = r0 :: rs := by
      cases g with
      | nil => exact absurd rfl hgne
      | cons r0 rs => exact ⟨r0, rs, rfl⟩
    have hgd : groupDate (r0 :: rs) = some r0.time.date := rfl
    have hall : ∀ r ∈ r0 :: rs, r.time.date = r0.time.date := by
      intro r hr
      have := hgdate r hr
      rw [hgd] at this
      exact (Option.some.inj this).symm
    have hne : some r0.time.date ≠ some d := by
      have := hhd (r0 :: rs) (by simp)
      rw [hgd] at this
      exact this
    rw [List.flatten_cons, List.foldl_append,
      dailyRun_new r0 rs (some d) (some b) acc hall hne]
    have hflush : flushOf (some d) (some b) = [b] := rfl
    rw [hflush]
    obtain ⟨hrel, hchain'⟩ := adjDistinct_cons _ _ hchain
    have := ih r0.time.date ((r0 :: rs).foldl updateBucket (freshBucket r0.time))
      (acc ++ [b]) (fun x hx => hOK x (List.mem_cons_of_mem _ hx)) hchain'
      (fun g0 hg0 => by
        have hr := hrel g0 hg0
        rw [hgd] at hr
        exact fun hc => hr hc.symm)
    rw [this]
    simp [bucketOf]

/-- The daily aggregator on a well-grouped hourly sequence produces
exactly one specification summary per day group, in encounter order. -/
lemma dailyChar (groups : List (List HourlyRecord)) (hw : WellGrouped groups) :
    createDailyForecast groups.flatten = groups.map summarize := by
  obtain ⟨hOK, hchain⟩ := hw
  cases groups with
  | nil => rfl
  | cons g gs =>
    obtain ⟨hgne, hgdate⟩ := hOK g (List.mem_cons_self _ _)
    obtain ⟨r0, rs, rfl⟩ : ∃ r0 rs, g = r0 :: rs := by
      cases g with
      | nil => exact absurd rfl hgne
      | cons r0 rs => exact ⟨r0, rs, rfl⟩
    have hgd : groupDate (r0 :: rs) = some r0.time.date := rfl
    have hall : ∀ r ∈ r0 :: rs, r.time.date = r0.time.date := by
      intro r hr
      have := hgdate r hr
      rw [hgd] at this
      exact (Option.some.inj this).symm
    have hcdf : createDailyForecast ((r0 :: rs) :: gs).flatten
        = (finishD (((r0 :: rs) :: gs).flatten.foldl dailyStep ⟨none, none, []⟩)).map
            cleanBucket := rfl
    rw [hcdf, List.flatten_cons, List.foldl_append,
      dailyRun_new r0 rs none none [] hall (fun hc => Option.noConfusion hc)]
    obtain ⟨hrel, hchain'⟩ := adjDistinct_cons _ _ hchain
    have hrun := runGroups gs r0.time.date
      ((r0 :: rs).foldl updateBucket (freshBucket r0.time)) ([] ++ flushOf none none)
      (fun x hx => hOK x (List.mem_cons_of_mem _ hx)) hchain'
      (fun g0 hg0 => by
        have hr := hrel g0 hg0
        rw [hgd] at hr
        exact fun hc => hr hc.symm)
    rw [hrun]
    have hmap : gs.map (fun a => cleanBucket (bucketOf a)) = gs.map summarize := by
      apply List.map_congr_left
      intro a ha
      obtain ⟨hane, -⟩ := hOK a (List.mem_cons_of_mem _ ha)
      obtain ⟨a0, as, rfl⟩ : ∃ a0 as, a = a0 :: as := by
        cases a with
        | nil => exact absurd rfl hane
        | cons a0 as => exact ⟨a0, as, rfl⟩
      exact clean_bucketOf a0 as
    simp only [flushOf, List.nil_append, List.map_cons, List.map_map]
    rw [show cleanBucket ((r0 :: rs).foldl updateBucket (freshBucket r0.time))
        = summarize (r0 :: rs) from clean_bucketOf r0 rs]
    have hmap' : gs.map (cleanBucket ∘ bucketOf) = gs.map summarize := by
      simpa [Function.comp] using hmap
    rw [hmap']

/-! ### C5: daily aggregation -/

/-- C5: on a well-grouped hourly sequence (records grouped by calendar
date, adjacent groups on different dates — the shape of a time-ascending
input), `_create_daily_forecast` emits exactly one record per day group,
in encounter order, and each record is the specification's summary of its
group: max/min over non-null temperatures (`none` for a day with zero
temperature samples, never a sentinel), the sum of non-null precipitation
(0 if none), and the last non-null wind speed, wind direction and weather
code. -/
theorem c5_daily_aggregation (groups : List (List HourlyRecord))
    (hw : WellGrouped groups) :
    createDailyForecast groups.flatten = groups.map summarize :=
  dailyChar groups hw

/-- Witness for C5, on the claim's example: two same-day records with
temperatures 5.0 and −2.0 and precipitations 1.0 and 0.5 produce one day
with `temperature_max = 5.0`, `temperature_min = −2.0` and
`precipitation = 1.5`. -/
theorem c5_witness :
    WellGrouped [[recA, recB]]
    ∧ createDailyForecast ([[recA, recB]] : List (List HourlyRecord)).flatten
        = [⟨⟨2026, 1, 1, 10, 0, 0⟩, some 5, some (-2), 3/2, 0, 0, some 0⟩] := by
  have hw : WellGrouped [[recA, recB]] := by decide
  refine ⟨hw, ?_⟩
  rw [c5_daily_aggregation [[recA, recB]] hw]
  simp [summarize, recA, recB, max_def, min_def]
  norm_num

/-! ### C8: decode order and skip behaviour -/

/-- Successful decode loops produce exactly the per-index survivors, in
axis order. -/
lemma decodeLoop_ok_char (ranges : Json) :
    ∀ (l : List Json) (i : ℕ) (recs : List HourlyRecord),
    decodeLoop ranges l i = .ok recs →
    recs = (List.enumFrom i l).filterMap (decodedAt ranges) := by
  intro l
  induction l with
  | nil =>
    intro i recs h
    rw [← Except.ok.inj h]
    rfl
  | cons t rest ih =>
    intro i recs h
    rw [decodeLoop] at h
    rcases hs : decodeStep ranges t i with e | o <;> rw [hs] at h
    · exact absurd h (fun hc => Except.noConfusion hc)
    · cases o with
      | none =>
        rw [ih (i + 1) recs h]
        simp [List.enumFrom, List.filterMap_cons, decodedAt, hs]
      | some r =>
        rcases hl : decodeLoop ranges rest (i + 1) with e | rs <;> rw [hl] at h
        · exact absurd h (fun hc => Except.noConfusion hc)
        · rw [← Except.ok.inj h, ih (i + 1) rs hl]
          simp [List.enumFrom, List.filterMap_cons, decodedAt, hs]

/-- When no index aborts (every step is caught or succeeds), the decode
loop completes. -/
lemma decodeLoop_total (ranges : Json) :
    ∀ (l : List Json) (i : ℕ),
    (∀ p ∈ List.enumFrom i l, exceptOk (decodeStep ranges p.2 p.1) = true) →
    ∃ recs, decodeLoop ranges l i = .ok recs := by
  intro l
  induction l with
  | nil => intro i _; exact ⟨[], rfl⟩
  | cons t rest ih =>
    intro i h
    have ht : exceptOk (decodeStep ranges t i) = true := by
      have := h (i, t) (by simp [List.enumFrom])
      simpa using this
    obtain ⟨rs, hrs⟩ := ih (i + 1)
      (fun p hp => h p (by simp [List.enumFrom]; right; simpa using hp))
    rcases hs : decodeStep ranges t i with e | o
    · rw [hs] at ht
      simp [exceptOk] at ht
    · cases o with
      | none => exact ⟨rs, by rw [decodeLoop, hs]; exact hrs⟩
      | some r => exact ⟨r :: rs, by rw [decodeLoop, hs, hrs]⟩

/-- C8 counterexample: the claim promises that a parse failure at one
index (here a type mismatch: the time axis holds a number at index 1)
skips only that index.  The code's `except (ValueError, TypeError)` does
not catch the `AttributeError` raised by `.replace` on a non-string, so
decoding aborts entirely instead of skipping index 1 and decoding the
remaining valid index. -/
theorem c8_counterexample :
    decodeLoop (Json.obj [])
      [.str "2026-01-01T00:00:00Z", .num 5, .str "2026-01-01T02:00:00Z"] 0
      = .error .attributeError := rfl

/-- C8 amended: for a response whose time axis has N entries, a
successful decode yields at most N records — exactly the indices whose
step survives, in axis order (first conjunct); and whenever every index
either decodes or fails with a caught `ValueError`/`TypeError` (bad
timestamp string, non-numeric parameter value), the decode completes
without aborting (second conjunct).  A non-string time-axis entry,
however, raises an uncaught error that aborts decoding entirely
(see the counterexample). -/
theorem c8_decode_order :
    (∀ (ranges : Json) (tvs : List Json) (recs : List HourlyRecord),
      decodeLoop ranges tvs 0 = .ok recs →
      recs.length ≤ tvs.length ∧ recs = tvs.enum.filterMap (decodedAt ranges))
    ∧ (∀ (ranges : Json) (tvs : List Json),
      (∀ p ∈ tvs.enum, exceptOk (decodeStep ranges p.2 p.1) = true) →
      ∃ recs, decodeLoop ranges tvs 0 = .ok recs) := by
  constructor
  · intro ranges tvs recs h
    have hc := decodeLoop_ok_char ranges tvs 0 recs h
    refine ⟨?_, hc⟩
    rw [hc]
    calc ((List.enumFrom 0 tvs).filterMap (decodedAt ranges)).length
        ≤ (List.enumFrom 0 tvs).length := List.length_filterMap_le _ _
      _ = tvs.length := by simp
  · intro ranges tvs h
    exact decodeLoop_total ranges tvs 0 h

/-- Witness for C8: an axis with a bad timestamp string in the middle
decodes without aborting, producing at most as many records as axis
entries. -/
theorem c8_witness :
    ∃ recs, decodeLoop (Json.obj [])
        [.str "2026-01-01T00:00:00Z", .str "bad-time", .str "2026-01-01T02:00:00Z"] 0
      = .ok recs ∧ recs.length ≤ 3 := by
  obtain ⟨recs, h⟩ := c8_decode_order.2 (Json.obj [])
    [.str "2026-01-01T00:00:00Z", .str "bad-time", .str "2026-01-01T02:00:00Z"] (by decide)
  exact ⟨recs, h, (c8_decode_order.1 (Json.obj []) _ recs h).1⟩

/-! ### C10: wind-direction invariant -/

/-- Inversion of `Except` bind on a success. -/
lemma exceptBind_ok {α β : Type} {x : Except PyErr α} {f : α → Except PyErr β} {b : β}
    (h : (x >>= f) = .ok b) : ∃ a, x = .ok a ∧ f a = .ok b := by
  cases x with
  | ok a => exact ⟨a, rfl, h⟩
  | error e => simp [bind, Except.bind] at h

/-- Every record the decode step builds has no wind direction: the
decoder never writes that key. -/
lemma decodeStepRaw_wd (ranges tj : Json) (i : ℕ) (r : HourlyRecord)
    (h : decodeStepRaw ranges tj i = .ok r) : r.wind_direction = none := by
  unfold decodeStepRaw at h
  obtain ⟨t, -, h⟩ := exceptBind_ok h
  obtain ⟨v1, -, h⟩ := exceptBind_ok h
  obtain ⟨v2, -, h⟩ := exceptBind_ok h
  obtain ⟨v3, -, h⟩ := exceptBind_ok h
  obtain ⟨v4, -, h⟩ := exceptBind_ok h
  obtain ⟨v5, -, h⟩ := exceptBind_ok h
  obtain ⟨v6, -, h⟩ := exceptBind_ok h
  obtain ⟨v7, -, h⟩ := exceptBind_ok h
  obtain ⟨v8, -, h⟩ := exceptBind_ok h
  simp only [pure, Except.pure, Except.ok.injEq] at h
  rw [← h]

/-- A decode step that keeps a record succeeded on the raw step. -/
lemma decodeStep_some (ranges tj : Json) (i : ℕ) (r : HourlyRecord)
    (h : decodeStep ranges tj i = .ok (some r)) : decodeStepRaw ranges tj i = .ok r := by
  unfold decodeStep at h
  rcases hs : decodeStepRaw ranges tj i with e | r' <;> rw [hs] at h
  · by_cases hc : caughtByDecodeLoop e = true <;> simp [hc] at h
  · simp only [Except.ok.injEq, Option.some.injEq] at h
    rw [h]

/-- C10: the decoder never produces a `wind_direction` value — every
decoded hourly record carries `none` there (first conjunct) — so a day
group of decoder output summarizes to the initialization value 0 for
wind direction (second conjunct); likewise a day with no non-null
wind-speed sample keeps wind speed 0 rather than null (third conjunct);
the fourth conjunct ties the summaries to `_create_daily_forecast`'s
actual output. -/
theorem c10_wind_direction :
    (∀ (ranges : Json) (tvs : List Json) (recs : List HourlyRecord),
      decodeLoop ranges tvs 0 = .ok recs → ∀ r ∈ recs, r.wind_direction = none)
    ∧ (∀ g : List HourlyRecord, (∀ r ∈ g, r.wind_direction = none) →
        (summarize g).wind_direction = 0)
    ∧ (∀ g : List HourlyRecord, g.filterMap (fun x => x.wind_speed) = [] →
        (summarize g).wind_speed = 0)
    ∧ (∀ groups : List (List HourlyRecord), WellGrouped groups →
        createDailyForecast groups.flatten = groups.map summarize) := by
  refine ⟨?_, ?_, ?_, fun groups hw => dailyChar groups hw⟩
  · intro ranges tvs recs h r hr
    rw [decodeLoop_ok_char ranges tvs 0 recs h] at hr
    obtain ⟨p, -, hp⟩ := List.mem_filterMap.mp hr
    unfold decodedAt at hp
    rcases hs : decodeStep ranges p.2 p.1 with e | o <;> rw [hs] at hp
    · exact absurd hp (fun hc => Option.noConfusion hc)
    · cases o with
      | none => exact absurd hp (fun hc => Option.noConfusion hc)
      | some r' =>
        rw [← Option.some.inj hp]
        exact decodeStepRaw_wd ranges p.2 p.1 r' (decodeStep_some ranges p.2 p.1 r' hs)
  · intro g hall
    cases g with
    | nil => rfl
    | cons r rs =>
      have : (r :: rs).filterMap (fun x => x.wind_direction) = [] :=
        List.filterMap_eq_nil_iff.mpr (fun a ha => hall a ha)
      simp [summarize, this]
  · intro g hnil
    cases g with
    | nil => rfl
    | cons r rs =>
      simp [summarize, hnil]

/-- Witness for C10: a concrete decoded record has no wind direction, and
its one-record day summarizes to wind direction 0 and wind speed 0. -/
theorem c10_witness :
    (blankRec ⟨2026, 1, 1, 0, 0, 0⟩).wind_direction = none
    ∧ (summarize [blankRec ⟨2026, 1, 1, 0, 0, 0⟩]).wind_direction = 0
    ∧ (summarize [blankRec ⟨2026, 1, 1, 0, 0, 0⟩]).wind_speed = 0 := by
  refine ⟨?_, ?_, ?_⟩
  · exact c10_wind_direction.1 (Json.obj []) [.str "2026-01-01T00:00:00Z"]
      [blankRec ⟨2026, 1, 1, 0, 0, 0⟩] rfl _ (by simp)
  · exact c10_wind_direction.2.1 _ (by decide)
  · exact c10_wind_direction.2.2.1 _ (by decide)

end DMI
